import Mathlib

/-!
Verification of the opportunity-record lifecycle of the Streamlit app in
src/app.py: the record store (a pandas DataFrame of free-form text fields),
the spreadsheet export (convert_df_to_excel), the form-submission handler
(render_diagnostico), the per-record edit page (render_planilha_final) and
the page-navigation controller (setup_navigation together with the
Anterior / Proximo buttons in main).

Cell values produced by the analysis collaborator and edited through the
forms are free-form text, so DataFrame cells are modelled as String; the
Python astype(str) call on such a column is the identity, and Python len
on a str counts code points exactly like String.length.
-/

set_option autoImplicit false

/-- A pandas DataFrame as used by app.py: an ordered list of column labels
and an ordered list of rows, each row a list of cell texts positionally
aligned with the columns. -/
structure DataFrame where
  columns : List String
  rows : List (List String)
deriving Repr, DecidableEq

/-- One sheet of the exported workbook: its name, the header row written by
DataFrame.to_excel with index omitted, the data rows, and the column widths
assigned through column_dimensions, positionally aligned with the header. -/
structure Sheet where
  name : String
  header : List String
  dataRows : List (List String)
  colWidths : List Nat
deriving Repr, DecidableEq, Inhabited

/-- The exported workbook: the sheets created inside the ExcelWriter block. -/
structure Workbook where
  sheets : List Sheet
deriving Repr, DecidableEq

/-- The cell text of column j in row r of the DataFrame (positional). -/
def cellAt (r : List String) (j : Nat) : String := r.getD j ""

/-- The width app.py computes for column j:
max(df[column].astype(str).map(len).max(), len(column)), the fold of
max over the cell-text lengths against the header length. The source
reads the per-column maximum off the pandas series; on a DataFrame with at
least one row this is the fold of max over the lengths starting from 0. -/
def columnWidthRaw (df : DataFrame) (j : Nat) : Nat :=
  max ((df.rows.map (fun r => (cellAt r j).length)).foldr max 0)
    (df.columns.getD j "").length

/-- Embedding of convert_df_to_excel (src/app.py lines 116-129): writes the
DataFrame to a single sheet named Oportunidade de melhorias with the header
row equal to the column labels (index=False), one data row per DataFrame
row, and for each column sets the width to columnWidthRaw + 2. -/
def convert_df_to_excel (df : DataFrame) : Workbook :=
  { sheets := [{ name := "Oportunidade de melhorias"
                 header := df.columns
                 dataRows := df.rows
                 colWidths := (List.range df.columns.length).map
                   (fun j => columnWidthRaw df j + 2) }] }

/-- Width of column j as recorded in the exported workbook. -/
def exportedWidth (df : DataFrame) (j : Nat) : Nat :=
  ((convert_df_to_excel df).sheets.headI.colWidths).getD j 0

/-- A record of resultados.to_dict as a Python dict: an ordered association
list from field names to cell texts, first binding wins on lookup. -/
abbrev Row : Type := List (String × String)

/-- Python dict indexing row[key] as an Option: none models the KeyError
raised when the key is absent. -/
def rowLookup (r : Row) (k : String) : Option String :=
  (List.find? (fun p => p.1 == k) r).map Prod.snd

/-- Python dict row.get(key, d): the value when present, d otherwise. -/
def rowGetD (r : Row) (k : String) (d : String) : String :=
  (rowLookup r k).getD d

/-- Python dict assignment of one key inside dict.update: an existing key
keeps its position and takes the new value, a new key is appended. -/
def dictInsert (r : Row) (k v : String) : Row :=
  if List.any r (fun p => p.1 == k) then
    List.map (fun p => if p.1 == k then (k, v) else p) r
  else r ++ [(k, v)]

/-- The five texts carried by one edit form of render_planilha_final. -/
structure Fields where
  oportunidade : String
  solucao : String
  backlog : String
  investimento : String
  ganhos : String
deriving Repr, DecidableEq

/-- The five fixed field names, in the order app.py writes and reads them. -/
def expectedColumns : List String :=
  ["Oportunidade de Melhoria", "Solução", "Backlog de Atividades",
   "Investimento", "Ganhos"]

/-- row.update call of src/app.py lines 286-292: writes the five fields of
the submitted form into the record in place. -/
def rowUpdate (r : Row) (fs : Fields) : Row :=
  dictInsert (dictInsert (dictInsert (dictInsert (dictInsert r
    "Oportunidade de Melhoria" fs.oportunidade)
    "Solução" fs.solucao)
    "Backlog de Atividades" fs.backlog)
    "Investimento" fs.investimento)
    "Ganhos" fs.ganhos

/-- Rendering the edit form of one record (src/app.py lines 249-278):
row[...] indexing on Oportunidade de Melhoria and on Solução raises when
the key is missing (modelled as none), while Backlog de Atividades,
Investimento and Ganhos are read with row.get and default to empty text. -/
def renderRow (r : Row) : Option Fields :=
  match rowLookup r "Oportunidade de Melhoria" with
  | none => none
  | some om =>
    match rowLookup r "Solução" with
    | none => none
    | some sol =>
      some { oportunidade := om
             solucao := sol
             backlog := rowGetD r "Backlog de Atividades" ""
             investimento := rowGetD r "Investimento" ""
             ganhos := rowGetD r "Ganhos" "" }

/-- The loop of render_planilha_final over resultados_dict: renders each
record in order and stops with a KeyError (none) at the first record whose
required field indexing fails. -/
def render_planilha_forms : List Row → Option (List Fields)
  | [] => some []
  | r :: rs =>
    match renderRow r with
    | none => none
    | some f =>
      match render_planilha_forms rs with
      | none => none
      | some fs => some (f :: fs)

/-- resultados.to_dict of src/app.py line 236 with the records orient: one
dict per row, keys the column labels in order. -/
def DataFrame.toRecords (df : DataFrame) : List Row :=
  df.rows.map (fun r => df.columns.zip r)

/-- Ordered union of the keys of a record list, first appearance first:
the column inference of the pandas DataFrame constructor on records. -/
def recordColumns (records : List Row) : List String :=
  records.foldl
    (fun acc r => acc ++ (List.filter (fun k => !(List.contains acc k))
      (List.map Prod.fst r))) []

/-- pd.DataFrame(records) of src/app.py line 299: one row per record, the
inferred columns, each cell read off the record (empty text standing for
the pandas missing marker on an absent key). -/
def dataFrameOfRecords (records : List Row) : DataFrame :=
  { columns := recordColumns records
    rows := records.map (fun r =>
      List.map (fun k => rowGetD r k "") (recordColumns records)) }

/-- One interaction of the edit loop: for each index carrying a submitted
form, the record is updated in place with the five submitted texts; all
other records are left as they are. edits i = none means the form at index
i was not submitted this interaction. -/
def applyEditsFrom (edits : Nat → Option Fields) : Nat → List Row → List Row
  | _, [] => []
  | i, r :: rs =>
    (match edits i with
     | some fs => rowUpdate r fs
     | none => r) :: applyEditsFrom edits (i + 1) rs

/-- The edit loop of src/app.py lines 245-294 applied to the records list. -/
def applyEdits (records : List Row) (edits : Nat → Option Fields) : List Row :=
  applyEditsFrom edits 0 records

/-- changes_made of src/app.py: true when at least one form was submitted. -/
def changesMade (n : Nat) (edits : Nat → Option Fields) : Bool :=
  List.any (List.range n) (fun i => (edits i).isSome)

/-- The six text inputs of the Oportunidade de Melhoria form. -/
structure FormInputs where
  ramo_empresa : String
  direcionadores : String
  nome_processo : String
  atividade : String
  evento : String
  causa : String
deriving Repr, DecidableEq

/-- The initial form_inputs dict of src/app.py lines 136-144. -/
def initialFormInputs : FormInputs :=
  { ramo_empresa := ""
    direcionadores := ""
    nome_processo := ""
    atividade := ""
    evento := ""
    causa := "" }

/-- The st.session_state slots the record lifecycle touches: the preserved
form inputs, the processo description string, and the record store. -/
structure SessionState where
  form_inputs : FormInputs
  processo : Option String
  resultados : Option DataFrame
deriving Repr, DecidableEq

/-- Python truthiness test of src/app.py line 201: every one of the six
strings is non-empty. -/
def allFieldsFilled (f : FormInputs) : Bool :=
  !(f.ramo_empresa == "") && !(f.direcionadores == "") &&
  !(f.nome_processo == "") && !(f.atividade == "") &&
  !(f.evento == "") && !(f.causa == "")

/-- The f-string of src/app.py line 205 building the process description. -/
def processoString (f : FormInputs) : String :=
  "ramo_empresa: " ++ f.ramo_empresa ++
  ", direcionadores: " ++ f.direcionadores ++
  ", nome_do_processo: " ++ f.nome_processo ++
  ", atividade: " ++ f.atividade ++
  ", evento: " ++ f.evento ++
  ", causa: " ++ f.causa

/-- The MIME string passed to both download buttons in src/app.py. -/
def excelMime : String :=
  "application/vnd.openxmlformats-officedocument.spreadsheetml.sheet"

/-- A st.download_button call: its label, the workbook bytes it serves
(modelled at workbook level), the file name and the MIME type. -/
structure Download where
  label : String
  data : Workbook
  fileName : String
  mime : String
deriving Repr, DecidableEq

/-- Everything one submitted run of render_diagnostico produces: the new
session state, whether run_agent_analysis was invoked, whether the
fill-all-fields warning was shown, and the download button if offered. -/
structure DiagnosticoResult where
  state : SessionState
  analysisCalled : Bool
  warningShown : Bool
  download : Option Download
deriving Repr, DecidableEq

/-- The submission branch of render_diagnostico (src/app.py lines 190-223):
the submitted values are stored into form_inputs first; then, when all six
are non-empty, the collaborator ra is called on the processo string, the
result is stored as resultados and offered as an Excel download; otherwise
a warning is shown and nothing else changes. -/
def render_diagnostico_submit (ra : String → DataFrame)
    (s : SessionState) (f : FormInputs) : DiagnosticoResult :=
  let s1 : SessionState := { s with form_inputs := f }
  if allFieldsFilled f then
    let processo := processoString f
    let resultados := ra processo
    { state := { s1 with processo := some processo, resultados := some resultados }
      analysisCalled := true
      warningShown := false
      download := some { label := "📥Baixar Excel"
                         data := convert_df_to_excel resultados
                         fileName := "oportunidade_melhoria.xlsx"
                         mime := excelMime } }
  else
    { state := s1
      analysisCalled := false
      warningShown := true
      download := none }

/-- Everything one run of render_planilha_final produces: the new session
state, whether the not-yet-executed warning was shown, whether rendering
the forms raised a KeyError, and the download button if offered. -/
structure PlanilhaResult where
  state : SessionState
  noResultsWarning : Bool
  lookupFailure : Bool
  download : Option Download
deriving Repr, DecidableEq

/-- One run of render_planilha_final (src/app.py lines 225-309): with no
resultados in the session a warning is shown; otherwise the store is turned
into records, every record's form is rendered (a missing required field
raises), the submitted edits are written into their records in place, and
when any form was submitted the records are rebuilt into a DataFrame that
replaces resultados and is offered as an Excel download. -/
def render_planilha_final (s : SessionState)
    (edits : Nat → Option Fields) : PlanilhaResult :=
  match s.resultados with
  | none =>
    { state := s, noResultsWarning := true, lookupFailure := false, download := none }
  | some df =>
    let records := df.toRecords
    match render_planilha_forms records with
    | none =>
      { state := s, noResultsWarning := false, lookupFailure := true, download := none }
    | some _ =>
      if changesMade records.length edits then
        let edited := dataFrameOfRecords (applyEdits records edits)
        { state := { s with resultados := some edited }
          noResultsWarning := false
          lookupFailure := false
          download := some { label := "📥 Baixar Excel com Todas as Edições"
                             data := convert_df_to_excel edited
                             fileName := "Oportunidade_de_melhorias_final.xlsx"
                             mime := excelMime } }
      else
        { state := s, noResultsWarning := false, lookupFailure := false, download := none }

/-- The two pages of setup_navigation (src/app.py line 94). -/
def pages : List String := ["🔍 Oportunidade de melhorias", "📋 Planilha Final"]

/-- A navigation event over n pages: one of the n sidebar page buttons
(which exist exactly for the page indices), the Anterior button, or the
Proximo button. -/
inductive NavOp (n : Nat) where
  | select (i : Fin n)
  | next
  | prev
deriving DecidableEq

/-- One navigation transition on current_page (src/app.py lines 99-104 and
350-360): a sidebar button sets the index to its page, Proximo increments
only when the index is below n - 1 (otherwise the button is not rendered),
Anterior decrements only when the index is above 0. -/
def navStep (n : Nat) (s : Nat) : NavOp n → Nat
  | NavOp.select i => i.val
  | NavOp.next => if s < n - 1 then s + 1 else s
  | NavOp.prev => if 0 < s then s - 1 else s

/-- Running a sequence of navigation events from the initial index 0
(src/app.py lines 96-97). -/
def navRun (n : Nat) (ops : List (NavOp n)) : Nat :=
  List.foldl (navStep n) 0 ops

/-- A sequence of visits to the Planilha Final page: each visit applies its
submitted edits to the session state through render_planilha_final. -/
def planilhaSessions (s : SessionState) (es : List (Nat → Option Fields)) : SessionState :=
  List.foldl (fun st e => (render_planilha_final st e).state) s es
/-- The fold of max over a list bounds every element of the list. -/
theorem foldr_max_le_of_mem (l : List Nat) (x : Nat) (hx : x ∈ l) :
    x ≤ l.foldr max 0 := by
  induction l with
  | nil => cases hx
  | cons a t ih =>
    rcases List.mem_cons.mp hx with h | h
    · subst h; exact Nat.le_max_left _ _
    · exact Nat.le_trans (ih h) (Nat.le_max_right _ _)

/-- The fold of max over a list is 0 or one of its elements. -/
theorem foldr_max_eq_zero_or_mem (l : List Nat) :
    l.foldr max 0 = 0 ∨ l.foldr max 0 ∈ l := by
  induction l with
  | nil => exact Or.inl rfl
  | cons a t ih =>
    rcases Nat.le_total a (t.foldr max 0) with h | h
    · rcases ih with h0 | hm
      · left
        simp only [List.foldr]
        omega
      · right
        simp only [List.foldr]
        rw [max_eq_right h]
        exact List.mem_cons_of_mem _ hm
    · right
      simp only [List.foldr]
      rw [max_eq_left h]
      exact List.mem_cons_self _ _


theorem exportedWidth_eq (df : DataFrame) (j : Nat) (hj : j < df.columns.length) :
    exportedWidth df j = columnWidthRaw df j + 2 := by
  unfold exportedWidth convert_df_to_excel
  simp only [List.headI]
  rw [List.getD_eq_getElem?_getD, List.getElem?_map, List.getElem?_range hj]
  rfl

/-- Claim C1: for every DataFrame with at least one row and every column in
it, the column width recorded in the exported workbook is exactly the
maximum of the header text length and the lengths of all cell texts of that
column, plus 2: it dominates the header length plus 2, dominates every cell
length plus 2, and is attained by the header or by some cell. -/
theorem C1_column_width (df : DataFrame) (j : Nat)
    (hj : j < df.columns.length) (hr : df.rows ≠ []) :
    ((df.columns.getD j "").length + 2 ≤ exportedWidth df j) ∧
    (∀ r ∈ df.rows, (cellAt r j).length + 2 ≤ exportedWidth df j) ∧
    (exportedWidth df j = (df.columns.getD j "").length + 2 ∨
      ∃ r ∈ df.rows, exportedWidth df j = (cellAt r j).length + 2) := by
  rw [exportedWidth_eq df j hj]
  unfold columnWidthRaw
  refine ⟨by omega, ?_, ?_⟩
  · intro r hrmem
    have : (cellAt r j).length ≤
        (df.rows.map (fun r => (cellAt r j).length)).foldr max 0 :=
      foldr_max_le_of_mem _ _ (List.mem_map_of_mem _ hrmem)
    omega
  · rcases Nat.le_total ((df.rows.map (fun r => (cellAt r j).length)).foldr max 0)
        (df.columns.getD j "").length with h | h
    · left; omega
    · rcases foldr_max_eq_zero_or_mem (df.rows.map (fun r => (cellAt r j).length)) with h0 | hm
      · left; omega
      · rcases List.mem_map.mp hm with ⟨r, hrmem, hlen⟩
        right
        exact ⟨r, hrmem, by omega⟩

/-- Witness for C1 on a concrete two-row store. -/
theorem C1_column_width_witness :
    let df : DataFrame := ⟨["Ganhos", "Investimento"], [["abc", "x"], ["abcdefgh", "yz"]]⟩
    (0 < df.columns.length ∧ df.rows ≠ []) ∧
    ((df.columns.getD 0 "").length + 2 ≤ exportedWidth df 0 ∧
      (∀ r ∈ df.rows, (cellAt r 0).length + 2 ≤ exportedWidth df 0) ∧
      (exportedWidth df 0 = (df.columns.getD 0 "").length + 2 ∨
        ∃ r ∈ df.rows, exportedWidth df 0 = (cellAt r 0).length + 2)) :=
  ⟨⟨by decide, by decide⟩,
    C1_column_width ⟨["Ganhos", "Investimento"], [["abc", "x"], ["abcdefgh", "yz"]]⟩ 0
      (by decide) (by decide)⟩

/-- One navigation transition keeps the page index in range. -/
theorem navStep_lt (n : Nat) (s : Nat) (hs : s < n) (op : NavOp n) :
    navStep n s op < n := by
  cases op with
  | select i => exact i.isLt
  | next => simp only [navStep]; split <;> omega
  | prev => simp only [navStep]; split <;> omega

/-- Folding navigation transitions from an in-range index stays in range. -/
theorem navFold_lt (n : Nat) (ops : List (NavOp n)) (s : Nat) (hs : s < n) :
    List.foldl (navStep n) s ops < n := by
  induction ops generalizing s with
  | nil => exact hs
  | cons op t ih => exact ih _ (navStep_lt n s hs op)

/-- Claim C4: starting from page index 0, every finite sequence of
navigation events (page selection, Proximo, Anterior) keeps the current
page index inside the range below the page count; selection sets the index
to the selected in-range page, Proximo increments only below the last
index, and Anterior decrements only above 0. -/
theorem C4_page_index_bounded (n : Nat) (hn : 0 < n) (ops : List (NavOp n))
    (s : Nat) (hs : s < n) (i : Fin n) :
    navRun n ops < n ∧
    navStep n s (NavOp.select i) = i.val ∧
    (s < n - 1 → navStep n s NavOp.next = s + 1) ∧
    (¬ s < n - 1 → navStep n s NavOp.next = s) ∧
    (0 < s → navStep n s NavOp.prev = s - 1) ∧
    (s = 0 → navStep n s NavOp.prev = 0) := by
  refine ⟨navFold_lt n ops 0 hn, rfl, ?_, ?_, ?_, ?_⟩ <;>
    intro h <;> simp [navStep, h] <;> omega

/-- Witness for C4 over the two pages of the app and a concrete run. -/
theorem C4_page_index_bounded_witness :
    (0 < pages.length ∧ (1 : Nat) < pages.length) ∧
    (navRun pages.length [NavOp.next, NavOp.next, NavOp.prev,
        NavOp.select ⟨1, by decide⟩] < pages.length ∧
      navStep pages.length 1 (NavOp.select ⟨1, by decide⟩) = 1 ∧
      (1 < pages.length - 1 → navStep pages.length 1 NavOp.next = 2) ∧
      (¬ 1 < pages.length - 1 → navStep pages.length 1 NavOp.next = 1) ∧
      (0 < 1 → navStep pages.length 1 NavOp.prev = 0) ∧
      ((1 : Nat) = 0 → navStep pages.length 1 NavOp.prev = 0)) :=
  ⟨⟨by decide, by decide⟩,
    C4_page_index_bounded pages.length (by decide)
      [NavOp.next, NavOp.next, NavOp.prev, NavOp.select ⟨1, by decide⟩]
      1 (by decide) ⟨1, by decide⟩⟩

/-- The truthiness gate of line 201 holds exactly when each of the six
submitted strings is non-empty. -/
theorem allFieldsFilled_iff (f : FormInputs) :
    allFieldsFilled f = true ↔
      (f.ramo_empresa ≠ "" ∧ f.direcionadores ≠ "" ∧ f.nome_processo ≠ "" ∧
       f.atividade ≠ "" ∧ f.evento ≠ "" ∧ f.causa ≠ "") := by
  unfold allFieldsFilled
  simp [Bool.and_eq_true, Bool.not_eq_true', beq_eq_false_iff_ne]
  tauto

/-- Claim C5: on submission the analysis collaborator is invoked exactly
when all six form fields are non-empty, and when some field is empty the
warning is shown and no analysis call is made. -/
theorem C5_validation_gate (ra : String → DataFrame) (s : SessionState)
    (f : FormInputs) :
    ((render_diagnostico_submit ra s f).analysisCalled = true ↔
      (f.ramo_empresa ≠ "" ∧ f.direcionadores ≠ "" ∧ f.nome_processo ≠ "" ∧
       f.atividade ≠ "" ∧ f.evento ≠ "" ∧ f.causa ≠ "")) ∧
    ((f.ramo_empresa = "" ∨ f.direcionadores = "" ∨ f.nome_processo = "" ∨
      f.atividade = "" ∨ f.evento = "" ∨ f.causa = "") →
      (render_diagnostico_submit ra s f).warningShown = true ∧
      (render_diagnostico_submit ra s f).analysisCalled = false) := by
  constructor
  · rw [← allFieldsFilled_iff]
    unfold render_diagnostico_submit
    by_cases hb : allFieldsFilled f <;> simp [hb]
  · intro hempty
    have hb : allFieldsFilled f = false := by
      cases hval : allFieldsFilled f
      · rfl
      · rcases (allFieldsFilled_iff f).mp hval with ⟨h1, h2, h3, h4, h5, h6⟩
        rcases hempty with h | h | h | h | h | h <;> simp_all
    unfold render_diagnostico_submit
    simp [hb]

/-- Witness for C5 on a submission with an empty causa field. -/
theorem C5_validation_gate_witness :
    let f : FormInputs := ⟨"Varejo", "Custo", "Compras", "Cotação", "Atraso", ""⟩
    let ra : String → DataFrame := fun _ => ⟨expectedColumns, []⟩
    let s : SessionState := ⟨initialFormInputs, none, none⟩
    ((render_diagnostico_submit ra s f).analysisCalled = true ↔
      (f.ramo_empresa ≠ "" ∧ f.direcionadores ≠ "" ∧ f.nome_processo ≠ "" ∧
       f.atividade ≠ "" ∧ f.evento ≠ "" ∧ f.causa ≠ "")) ∧
    ((f.ramo_empresa = "" ∨ f.direcionadores = "" ∨ f.nome_processo = "" ∨
      f.atividade = "" ∨ f.evento = "" ∨ f.causa = "") →
      (render_diagnostico_submit ra s f).warningShown = true ∧
      (render_diagnostico_submit ra s f).analysisCalled = false) :=
  C5_validation_gate (fun _ => ⟨expectedColumns, []⟩)
    ⟨initialFormInputs, none, none⟩
    ⟨"Varejo", "Custo", "Compras", "Cotação", "Atraso", ""⟩

/-- Claim C6: on a submission with all six fields non-empty, the record
store placed in the session is exactly the collaborator's returned result,
so any store read back from the session has the collaborator's row count. -/
theorem C6_store_matches_result (ra : String → DataFrame) (s : SessionState)
    (f : FormInputs)
    (h : f.ramo_empresa ≠ "" ∧ f.direcionadores ≠ "" ∧ f.nome_processo ≠ "" ∧
      f.atividade ≠ "" ∧ f.evento ≠ "" ∧ f.causa ≠ "") :
    (render_diagnostico_submit ra s f).state.resultados =
      some (ra (processoString f)) ∧
    ∀ df, (render_diagnostico_submit ra s f).state.resultados = some df →
      df.rows.length = (ra (processoString f)).rows.length := by
  have hb : allFieldsFilled f = true := (allFieldsFilled_iff f).mpr h
  unfold render_diagnostico_submit
  simp [hb]

/-- Witness for C6 on a concrete stubbed collaborator with two rows. -/
theorem C6_store_matches_result_witness :
    let ra : String → DataFrame := fun _ =>
      ⟨expectedColumns, [["a", "b", "c", "d", "e"], ["f", "g", "h", "i", "j"]]⟩
    let s : SessionState := ⟨initialFormInputs, none, none⟩
    let f : FormInputs := ⟨"Varejo", "Custo", "Compras", "Cotação", "Atraso", "Fornecedor"⟩
    (render_diagnostico_submit ra s f).state.resultados =
      some (ra (processoString f)) ∧
    ∀ df, (render_diagnostico_submit ra s f).state.resultados = some df →
      df.rows.length = (ra (processoString f)).rows.length :=
  C6_store_matches_result
    (fun _ => ⟨expectedColumns, [["a", "b", "c", "d", "e"], ["f", "g", "h", "i", "j"]]⟩)
    ⟨initialFormInputs, none, none⟩
    ⟨"Varejo", "Custo", "Compras", "Cotação", "Atraso", "Fornecedor"⟩
    (by decide)

/-- Claim C10: every submission overwrites the stored form inputs with the
submitted values before validation, so a failed validation still preserves
the submitted values while showing the warning, making no analysis call and
leaving the record store untouched. -/
theorem C10_inputs_preserved (ra : String → DataFrame) (s : SessionState)
    (f : FormInputs) :
    ((render_diagnostico_submit ra s f).state.form_inputs = f) ∧
    (allFieldsFilled f = false →
      (render_diagnostico_submit ra s f).warningShown = true ∧
      (render_diagnostico_submit ra s f).analysisCalled = false ∧
      (render_diagnostico_submit ra s f).state.resultados = s.resultados) := by
  unfold render_diagnostico_submit
  by_cases hb : allFieldsFilled f <;> simp [hb]

/-- Witness for C10 on a failing submission over a non-trivial session. -/
theorem C10_inputs_preserved_witness :
    let ra : String → DataFrame := fun _ => ⟨expectedColumns, []⟩
    let s : SessionState := ⟨initialFormInputs, none, some ⟨expectedColumns, [["a", "b", "c", "d", "e"]]⟩⟩
    let f : FormInputs := ⟨"", "Custo", "Compras", "Cotação", "Atraso", "Fornecedor"⟩
    ((render_diagnostico_submit ra s f).state.form_inputs = f) ∧
    (allFieldsFilled f = false →
      (render_diagnostico_submit ra s f).warningShown = true ∧
      (render_diagnostico_submit ra s f).analysisCalled = false ∧
      (render_diagnostico_submit ra s f).state.resultados = s.resultados) :=
  C10_inputs_preserved (fun _ => ⟨expectedColumns, []⟩)
    ⟨initialFormInputs, none, some ⟨expectedColumns, [["a", "b", "c", "d", "e"]]⟩⟩
    ⟨"", "Custo", "Compras", "Cotação", "Atraso", "Fornecedor"⟩

/-- Claim C8: the export is a pure function of the record store: two stores
with the same column labels and the same rows of field values export to
identical workbooks, with no dependence on wall-clock time or any other
ambient state. -/
theorem C8_export_deterministic (df1 df2 : DataFrame)
    (hc : df1.columns = df2.columns) (hr : df1.rows = df2.rows) :
    convert_df_to_excel df1 = convert_df_to_excel df2 := by
  have : df1 = df2 := by
    cases df1
    cases df2
    simp_all
  rw [this]

/-- Witness for C8 on two structurally equal concrete stores. -/
theorem C8_export_deterministic_witness :
    convert_df_to_excel ⟨expectedColumns, [["a", "b", "c", "d", "e"]]⟩ =
      convert_df_to_excel ⟨expectedColumns, [["a", "b", "c", "d", "e"]]⟩ :=
  C8_export_deterministic ⟨expectedColumns, [["a", "b", "c", "d", "e"]]⟩
    ⟨expectedColumns, [["a", "b", "c", "d", "e"]]⟩ rfl rfl

/-- Rendering one record's form raises exactly when one of the two fields
read with raising indexing is absent. -/
theorem renderRow_eq_none_iff (r : Row) :
    renderRow r = none ↔
      rowLookup r "Oportunidade de Melhoria" = none ∨
      rowLookup r "Solução" = none := by
  unfold renderRow
  cases rowLookup r "Oportunidade de Melhoria" <;>
    cases rowLookup r "Solução" <;> simp

/-- The edit-form loop raises exactly when rendering some record raises. -/
theorem render_planilha_forms_eq_none_iff (records : List Row) :
    render_planilha_forms records = none ↔ ∃ r ∈ records, renderRow r = none := by
  induction records with
  | nil => simp [render_planilha_forms]
  | cons r rs ih =>
    simp only [render_planilha_forms]
    cases h : renderRow r with
    | none => simp [h]
    | some f =>
      cases h2 : render_planilha_forms rs with
      | none =>
        simp only []
        constructor
        · intro _
          rcases ih.mp h2 with ⟨r', hr', hn⟩
          exact ⟨r', List.mem_cons_of_mem _ hr', hn⟩
        · intro _
          trivial
      | some fs =>
        simp only []
        constructor
        · intro hcontra
          cases hcontra
        · rintro ⟨r', hr', hn⟩
          rcases List.mem_cons.mp hr' with h' | h'
          · subst h'
            rw [h] at hn
            cases hn
          · have hcontra := ih.mpr ⟨r', h', hn⟩
            rw [h2] at hcontra
            cases hcontra

/-- Counterexample to claim C2 as stated: a store returned without the
Ganhos column (one of the five expected columns) renders all its editable
forms without any lookup failure, because Backlog de Atividades,
Investimento and Ganhos are read with a defaulted get. -/
theorem C2_counterexample :
    ("Ganhos" ∈ expectedColumns ∧
      "Ganhos" ∉ (DataFrame.mk ["Oportunidade de Melhoria", "Solução",
        "Backlog de Atividades", "Investimento"] [["a", "b", "c", "d"]]).columns) ∧
    (render_planilha_final
      ⟨initialFormInputs, none,
        some (DataFrame.mk ["Oportunidade de Melhoria", "Solução",
          "Backlog de Atividades", "Investimento"] [["a", "b", "c", "d"]])⟩
      (fun _ => none)).lookupFailure = false ∧
    (render_planilha_forms (DataFrame.mk ["Oportunidade de Melhoria", "Solução",
      "Backlog de Atividades", "Investimento"] [["a", "b", "c", "d"]]).toRecords).isSome
      = true := by
  decide

/-- Claim C2 amended: rendering the editable forms over a store in the
session raises a lookup failure exactly when some record is missing
Oportunidade de Melhoria or Solução, the two fields read with raising dict
indexing; a record missing only Backlog de Atividades, Investimento or
Ganhos renders without failure through the defaulted get. -/
theorem C2_required_field_lookup (s : SessionState) (df : DataFrame)
    (edits : Nat → Option Fields) (h : s.resultados = some df) :
    (render_planilha_final s edits).lookupFailure = true ↔
      ∃ r ∈ df.toRecords,
        rowLookup r "Oportunidade de Melhoria" = none ∨
        rowLookup r "Solução" = none := by
  unfold render_planilha_final
  rw [h]
  cases hforms : render_planilha_forms df.toRecords with
  | none =>
    simp only [hforms]
    constructor
    · intro _
      rcases (render_planilha_forms_eq_none_iff _).mp hforms with ⟨r, hr, hn⟩
      exact ⟨r, hr, (renderRow_eq_none_iff r).mp hn⟩
    · intro _
      trivial
  | some fs =>
    simp only [hforms]
    constructor
    · intro hcontra
      by_cases hc : changesMade df.toRecords.length edits <;> simp [hc] at hcontra
    · rintro ⟨r, hr, hn⟩
      have hcontra := (render_planilha_forms_eq_none_iff df.toRecords).mpr
        ⟨r, hr, (renderRow_eq_none_iff r).mpr hn⟩
      rw [hforms] at hcontra
      cases hcontra

/-- Witness for the amended C2: a store whose single record carries only
Investimento fails rendering with a lookup failure. -/
theorem C2_required_field_lookup_witness :
    (render_planilha_final
      ⟨initialFormInputs, none, some (DataFrame.mk ["Investimento"] [["x"]])⟩
      (fun _ => none)).lookupFailure = true :=
  (C2_required_field_lookup
      ⟨initialFormInputs, none, some (DataFrame.mk ["Investimento"] [["x"]])⟩
      (DataFrame.mk ["Investimento"] [["x"]]) (fun _ => none) rfl).mpr
    ⟨[("Investimento", "x")], by decide, Or.inl (by decide)⟩

/-- Element j of one pass of the edit loop started at offset i. -/
theorem applyEditsFrom_getElem? (edits : Nat → Option Fields) (i j : Nat)
    (records : List Row) :
    (applyEditsFrom edits i records)[j]? =
      (records[j]?).map (fun r =>
        match edits (i + j) with
        | some fs => rowUpdate r fs
        | none => r) := by
  induction records generalizing i j with
  | nil => simp [applyEditsFrom]
  | cons r rs ih =>
    cases j with
    | zero => simp [applyEditsFrom]
    | succ j' =>
      simp only [applyEditsFrom, List.getElem?_cons_succ]
      rw [ih (i + 1) j']
      simp only [show i + 1 + j' = i + (j' + 1) from by omega]

/-- Claim C3: saving the edit form at index i rewrites exactly the record
at index i with the five submitted field values, and every other record of
the store is left structurally equal to what it was before the save. -/
theorem C3_save_targets_only_index (records : List Row) (i : Nat) (fs : Fields)
    (j : Nat) (hj : j ≠ i) :
    (applyEdits records (fun k => if k = i then some fs else none))[j]? =
      records[j]? ∧
    (applyEdits records (fun k => if k = i then some fs else none))[i]? =
      (records[i]?).map (fun r => rowUpdate r fs) := by
  unfold applyEdits
  rw [applyEditsFrom_getElem?, applyEditsFrom_getElem?]
  constructor
  · simp [hj]
  · simp

/-- Witness for C3 on a two-record store edited at index 0. -/
theorem C3_save_targets_only_index_witness :
    (Nat.succ 0 ≠ 0) ∧
    ((applyEdits [[("Oportunidade de Melhoria", "a")], [("Solução", "b")]]
        (fun k => if k = 0 then some ⟨"v", "w", "x", "y", "z"⟩ else none))[1]? =
      ([[("Oportunidade de Melhoria", "a")], [("Solução", "b")]] : List Row)[1]? ∧
    (applyEdits [[("Oportunidade de Melhoria", "a")], [("Solução", "b")]]
        (fun k => if k = 0 then some ⟨"v", "w", "x", "y", "z"⟩ else none))[0]? =
      (([[("Oportunidade de Melhoria", "a")], [("Solução", "b")]] : List Row)[0]?).map
        (fun r => rowUpdate r ⟨"v", "w", "x", "y", "z"⟩)) :=
  ⟨by decide,
    C3_save_targets_only_index
      [[("Oportunidade de Melhoria", "a")], [("Solução", "b")]] 0
      ⟨"v", "w", "x", "y", "z"⟩ 1 (by decide)⟩

/-- One pass of the edit loop never changes the number of records. -/
theorem applyEditsFrom_length (edits : Nat → Option Fields) (i : Nat)
    (records : List Row) :
    (applyEditsFrom edits i records).length = records.length := by
  induction records generalizing i with
  | nil => rfl
  | cons r rs ih => simp [applyEditsFrom, ih]

/-- One visit to the Planilha Final page leaves a record store in the
session with the same number of records. -/
theorem render_planilha_step_preserves (s : SessionState)
    (e : Nat → Option Fields) (df : DataFrame) (h : s.resultados = some df) :
    ∃ df2, (render_planilha_final s e).state.resultados = some df2 ∧
      df2.rows.length = df.rows.length := by
  unfold render_planilha_final
  rw [h]
  cases hforms : render_planilha_forms df.toRecords with
  | none =>
    simp only [hforms]
    exact ⟨df, h, rfl⟩
  | some fs =>
    simp only [hforms]
    by_cases hc : changesMade df.toRecords.length e
    · refine ⟨dataFrameOfRecords (applyEdits df.toRecords e), by simp [hc], ?_⟩
      simp [dataFrameOfRecords, applyEdits, applyEditsFrom_length, DataFrame.toRecords]
    · exact ⟨df, by simp [hc, h], rfl⟩

/-- Claim C7: for every store in the session and every sequence of visits
to the edit page, each submitting any set of per-record edits, the store
read back from the session still holds exactly as many records as before:
edits rewrite fields in place and never insert or remove a record. -/
theorem C7_record_count_invariant (s : SessionState) (df : DataFrame)
    (h : s.resultados = some df) (es : List (Nat → Option Fields)) :
    (planilhaSessions s es).resultados.map (fun d => d.rows.length) =
      some df.rows.length := by
  induction es generalizing s df with
  | nil =>
    unfold planilhaSessions
    simp [h]
  | cons e es ih =>
    rcases render_planilha_step_preserves s e df h with ⟨df1, h1, hlen⟩
    have hstep := ih _ _ h1
    unfold planilhaSessions at hstep ⊢
    simp only [List.foldl] at hstep ⊢
    rw [hstep, hlen]

/-- Witness for C7: two visits editing records 0 and 1 of a two-record
store keep its record count at 2. -/
theorem C7_record_count_invariant_witness :
    (planilhaSessions
      ⟨initialFormInputs, none,
        some (DataFrame.mk expectedColumns
          [["a", "b", "c", "d", "e"], ["f", "g", "h", "i", "j"]])⟩
      [fun k => if k = 0 then some ⟨"v", "w", "x", "y", "z"⟩ else none,
       fun k => if k = 1 then some ⟨"p", "q", "r", "s", "t"⟩ else none]).resultados.map
        (fun d => d.rows.length) =
      some (DataFrame.mk expectedColumns
        [["a", "b", "c", "d", "e"], ["f", "g", "h", "i", "j"]]).rows.length :=
  C7_record_count_invariant
    ⟨initialFormInputs, none,
      some (DataFrame.mk expectedColumns
        [["a", "b", "c", "d", "e"], ["f", "g", "h", "i", "j"]])⟩
    (DataFrame.mk expectedColumns
      [["a", "b", "c", "d", "e"], ["f", "g", "h", "i", "j"]])
    rfl
    [fun k => if k = 0 then some ⟨"v", "w", "x", "y", "z"⟩ else none,
     fun k => if k = 1 then some ⟨"p", "q", "r", "s", "t"⟩ else none]

/-- Claim C9: exporting a store whose columns are the five fixed field
names yields a workbook with exactly one sheet, whose header row is the
five fixed names in order followed by one data row per record; and every
download button either page offers serves its file under the Office Open
XML spreadsheet MIME type with a file name ending in .xlsx. -/
theorem C9_export_shape (df : DataFrame) (h : df.columns = expectedColumns)
    (ra : String → DataFrame) (s : SessionState) (f : FormInputs)
    (s2 : SessionState) (e : Nat → Option Fields) :
    (convert_df_to_excel df).sheets.length = 1 ∧
    (∀ sh ∈ (convert_df_to_excel df).sheets,
      sh.header = expectedColumns ∧ sh.dataRows.length = df.rows.length) ∧
    (∀ d, (render_diagnostico_submit ra s f).download = some d →
      d.mime = "application/vnd.openxmlformats-officedocument.spreadsheetml.sheet" ∧
      ∃ pre, d.fileName = pre ++ ".xlsx") ∧
    (∀ d, (render_planilha_final s2 e).download = some d →
      d.mime = "application/vnd.openxmlformats-officedocument.spreadsheetml.sheet" ∧
      ∃ pre, d.fileName = pre ++ ".xlsx") := by
  refine ⟨rfl, ?_, ?_, ?_⟩
  · intro sh hsh
    simp only [convert_df_to_excel, List.mem_singleton] at hsh
    subst hsh
    exact ⟨h, rfl⟩
  · intro d hd
    unfold render_diagnostico_submit at hd
    by_cases hb : allFieldsFilled f <;> simp [hb] at hd
    rw [← hd]
    exact ⟨rfl, "oportunidade_melhoria", rfl⟩
  · intro d hd
    unfold render_planilha_final at hd
    cases hres : s2.resultados with
    | none => rw [hres] at hd; cases hd
    | some df2 =>
      rw [hres] at hd
      cases hforms : render_planilha_forms df2.toRecords with
      | none => simp [hforms] at hd
      | some fs =>
        simp only [hforms] at hd
        by_cases hc : changesMade df2.toRecords.length e <;> simp [hc] at hd
        rw [← hd]
        exact ⟨rfl, "Oportunidade_de_melhorias_final", rfl⟩

/-- Witness for C9 on a concrete one-record store with the five columns. -/
theorem C9_export_shape_witness :
    (DataFrame.mk expectedColumns [["a", "b", "c", "d", "e"]]).columns
        = expectedColumns ∧
    ((convert_df_to_excel (DataFrame.mk expectedColumns [["a", "b", "c", "d", "e"]])).sheets.length = 1 ∧
    (∀ sh ∈ (convert_df_to_excel (DataFrame.mk expectedColumns [["a", "b", "c", "d", "e"]])).sheets,
      sh.header = expectedColumns ∧
      sh.dataRows.length = (DataFrame.mk expectedColumns [["a", "b", "c", "d", "e"]]).rows.length) ∧
    (∀ d, (render_diagnostico_submit (fun _ => DataFrame.mk expectedColumns [])
        ⟨initialFormInputs, none, none⟩
        ⟨"Varejo", "Custo", "Compras", "Cotação", "Atraso", "Fornecedor"⟩).download = some d →
      d.mime = "application/vnd.openxmlformats-officedocument.spreadsheetml.sheet" ∧
      ∃ pre, d.fileName = pre ++ ".xlsx") ∧
    (∀ d, (render_planilha_final
        ⟨initialFormInputs, none,
          some (DataFrame.mk expectedColumns [["a", "b", "c", "d", "e"]])⟩
        (fun _ => none)).download = some d →
      d.mime = "application/vnd.openxmlformats-officedocument.spreadsheetml.sheet" ∧
      ∃ pre, d.fileName = pre ++ ".xlsx")) :=
  ⟨rfl,
    C9_export_shape (DataFrame.mk expectedColumns [["a", "b", "c", "d", "e"]]) rfl
      (fun _ => DataFrame.mk expectedColumns [])
      ⟨initialFormInputs, none, none⟩
      ⟨"Varejo", "Custo", "Compras", "Cotação", "Atraso", "Fornecedor"⟩
      ⟨initialFormInputs, none,
        some (DataFrame.mk expectedColumns [["a", "b", "c", "d", "e"]])⟩
      (fun _ => none)⟩
